import Mathlib

/-!
Shallow embedding of the booking/payment flow orchestration of the
stripe-booking-form-test repository, and proofs about it.

Sources embedded here:
* `src/context/FlowContext.jsx` — the reducer-style global flow state
  (`initialState`, `flowReducer`, `isCardRequired`, `formatAmount`);
* `src/api/stripe.js` — `getIntentType`, `confirmIntent` routing,
  `refundPayment` / `updatePaymentDescription` placeholders;
* `src/components/UserDetailsForm.jsx` — both components in that file:
  `UserDetailsForm.handleSubmit` (restore → update → refund-on-failure path)
  and `UnifiedBookingForm` (`processHold`, `fetchStripeKeys`,
  `fetchDepositInfo`, `processPayment`, `attachPaymentMethod`,
  `updateBooking`, `completeBooking`);
* `src/components/StripePaymentForm.jsx` — the pm-id request construction.

JavaScript objects with possibly-absent (undefined) or null fields are
modelled with `Option`; a field that no object literal in the source ever
sets is `none` everywhere.  JavaScript truthiness on strings (null,
undefined and "" are falsy) is modelled by `truthy`.  Network calls are
modelled by emitting an event (`Ev`) into a trace; the environment
(provider and processor responses) is passed in explicitly.  Monetary
floats produced by `/ 100` are modelled as exact rationals.
-/

namespace StripeBooking

/-- JavaScript truthiness for an optional string: `null`, `undefined` and
the empty string are falsy, every other string is truthy. -/
def truthy : Option String → Bool
  | none => false
  | some s => !(s == "")

/-! ## FlowContext.jsx : state, actions, reducer -/

/-- Flow states, from `FLOW_STATES` in FlowContext.jsx. -/
inductive FlowState
  | idle
  | holding
  | awaitingStripe
  | enteringCard
  | cardConfirmed
  | collectingUser
  | completed
  | error
  deriving DecidableEq, Repr

/-- Booking data stored by `SET_BOOKING`: provider fields of the hold
response plus the hold parameters merged in by `processHold`. -/
structure Booking where
  uid : Int
  created : Int
  card : Int
  perHead : Option Int
  est : String
  covers : Int
  date : String
  time : Int
  area : Option Int
  deriving DecidableEq, Repr

/-- The `stripe` sub-object of the flow state.  The source object literal
only ever sets `clientSecret`, `publicKey`, `cust` (via SET_STRIPE_KEYS)
and `paymentType`, `amount`, `currency` (via SET_PAYMENT_TYPE).  The
fields `paymentIntentId` and `intentType` are read by
`UserDetailsForm.handleSubmit` but are never written anywhere; reading an
absent JavaScript field yields undefined, modelled as `none`. -/
structure StripeCtx where
  clientSecret : Option String
  publicKey : Option String
  cust : Option String
  paymentType : Option String
  amount : Option Int
  currency : Option String
  paymentIntentId : Option String
  intentType : Option String
  deriving DecidableEq, Repr

/-- One entry of the activity log (request/response JSON payloads are not
needed by any claim and are elided; only the structural fields remain). -/
structure LogEntry where
  timestamp : Int
  label : String
  deriving DecidableEq, Repr

/-- The whole reducer state, from `initialState` in FlowContext.jsx. -/
structure FlowSt where
  booking : Option Booking
  stripe : StripeCtx
  paymentMethod : Option String
  flowState : FlowState
  logs : List LogEntry
  error : Option String
  holdExpiry : Option Int
  deriving DecidableEq, Repr

/-- Definition `initialState` from FlowContext.jsx. -/
def initialState : FlowSt :=
  { booking := none
    stripe :=
      { clientSecret := none
        publicKey := none
        cust := none
        paymentType := none
        amount := none
        currency := none
        paymentIntentId := none
        intentType := none }
    paymentMethod := none
    flowState := FlowState.idle
    logs := []
    error := none
    holdExpiry := none }

/-- Reducer actions, from `ActionTypes` in FlowContext.jsx.  `setBooking`
carries the current clock value since the reducer reads `Date.now()`;
`addLog` carries the timestamp the reducer would attach. -/
inductive Action
  | setBooking (b : Booking) (now : Int)
  | setStripeKeys (clientSecret publicKey cust : Option String)
  | setPaymentType (code : Int) (total : Option Int) (currency : Option String)
  | setFlowState (fs : FlowState)
  | addLog (label : String) (ts : Int)
  | clearLogs
  | setError (msg : String)
  | setPaymentMethod (pm : Option String)
  | resetState
  deriving DecidableEq, Repr

/-- Function `flowReducer` from FlowContext.jsx, case by case. -/
def flowReducer (state : FlowSt) : Action → FlowSt
  | Action.setBooking b now =>
      { state with booking := some b, holdExpiry := some (now + 3 * 60 * 1000) }
  | Action.setStripeKeys cs pk cust =>
      { state with stripe :=
          { state.stripe with clientSecret := cs, publicKey := pk, cust := cust } }
  | Action.setPaymentType code total currency =>
      { state with stripe :=
          { state.stripe with
              paymentType := some (if code = 1 then "noshow" else "deposit")
              amount := total
              currency := currency } }
  | Action.setFlowState fs => { state with flowState := fs }
  | Action.addLog label ts =>
      { state with logs := state.logs ++ [{ timestamp := ts, label := label }] }
  | Action.clearLogs => { state with logs := [] }
  | Action.setError msg =>
      { state with error := some msg, flowState := FlowState.error }
  | Action.setPaymentMethod pm => { state with paymentMethod := pm }
  | Action.resetState => initialState

/-- Dispatching a list of actions in order, starting from a state. -/
def applyActs (s : FlowSt) : List Action → FlowSt
  | [] => s
  | a :: rest => applyActs (flowReducer s a) rest

/-- Function `isCardRequired` from FlowContext.jsx:
`state.booking && state.booking.card > 0`. -/
def isCardRequired (booking : Option Booking) : Bool :=
  match booking with
  | none => false
  | some b => decide (0 < b.card)

/-- Numeric content of `formatAmount` from FlowContext.jsx: falsy input
(absent or zero cents) displays as 0 dollars, otherwise cents are divided
by 100.  The dollar-sign string formatting is elided; the value shown is
this rational. -/
def formatAmount : Option Int → ℚ
  | none => 0
  | some c => if c = 0 then 0 else (c : ℚ) / 100

/-! ## api/stripe.js : intent-type classification and routing -/

/-- Whether `pre` is a prefix of `s`, on code points.  Models the
JavaScript `s.startsWith(pre)`. -/
def strStarts (s pre : String) : Bool :=
  pre.toList.isPrefixOf s.toList

/-- Whether `pat` occurs as a contiguous substring of `s`, on code
points.  Models the JavaScript `s.includes(pat)`. -/
def strIncludes (s pat : String) : Bool :=
  go pat.toList s.toList
where
  go (pat : List Char) : List Char → Bool
    | [] => pat.isEmpty
    | c :: rest => pat.isPrefixOf (c :: rest) || go pat rest

/-- Function `getIntentType` from api/stripe.js.  A null or empty client secret is
falsy and yields null; a secret starting with seti underscore is a setup
intent, one starting with pi underscore a payment intent; otherwise the
type is inferred from whether the secret includes the marker between
underscores. -/
def getIntentType (clientSecret : Option String) : Option String :=
  match clientSecret with
  | none => none
  | some cs =>
      if cs == "" then none
      else if strStarts cs "seti_" then some "setup_intent"
      else if strStarts cs "pi_" then some "payment_intent"
      else if strIncludes cs "_seti_" then some "setup_intent"
      else some "payment_intent"

/-- Which processor confirmation call a client secret is routed to. -/
inductive ConfirmRoute
  | setupPath
  | paymentPath
  deriving DecidableEq, Repr

/-- Routing performed by `confirmIntent` in api/stripe.js: the setup
confirmation is used exactly when `getIntentType` answers setup intent,
and the payment confirmation in every other case (including a null
type). -/
def confirmIntentRoute (clientSecret : Option String) : ConfirmRoute :=
  if getIntentType clientSecret = some "setup_intent" then ConfirmRoute.setupPath
  else ConfirmRoute.paymentPath

/-! ## Network calls as trace events -/

/-- Parameters of the provider `/int/pm-id` attach request, built in
`attachPaymentMethod` (UserDetailsForm.jsx) and in
`StripePaymentForm.handleSubmit`.  `totalFloat` is the result of the
JavaScript division `stripeContext.amount / 100`, modelled exactly as a
rational; an absent amount propagates as `none`. -/
structure PmIdParams where
  est : String
  uid : Int
  created : Int
  pm : String
  total : Option Int
  totalFloat : Option ℚ
  type : Int
  deriving DecidableEq, Repr

/-- Construction of the pm-id request parameters from the booking, the
stripe context amount and the `pm` value (UserDetailsForm.jsx lines
1148-1156; StripePaymentForm.jsx lines 196-204 are identical). -/
def mkPmIdParams (b : Booking) (amount : Option Int) (pm : String) : PmIdParams :=
  { est := b.est
    uid := b.uid
    created := b.created
    pm := pm
    total := amount
    totalFloat := amount.map (fun a => (a : ℚ) / 100)
    type := 0 }

/-- Network calls issued by the stage operations, in issue order. -/
inductive Ev
  | restoreCall (uid : Int) (ok : Bool)
  | confirmCall (route : ConfirmRoute) (ok : Bool)
  | updateCall (uid : Int) (ok : Bool)
  | pmIdCall (params : PmIdParams)
  | refundCall (intentId : String)
  | updateDescCall (intentId : String)
  deriving DecidableEq, Repr

/-- Processor-side confirmation result: the intent object returned by a
successful confirmation.  It carries both the intent identifier (`id`)
and the attached payment-method identifier (`payment_method`). -/
structure IntentResult where
  id : String
  payment_method : String
  status : String
  deriving DecidableEq, Repr

/-- The environment: responses the external services would give to the
calls an operation issues.  `confirmResult` is an error for a decline or
processing failure. -/
structure Env where
  restoreOk : Bool
  stripeLoaded : Bool
  confirmResult : Except String IntentResult
  updateOk : Bool
  pmIdOk : Bool
  deriving Repr

/-! ## Stage operations of the UnifiedBookingForm component
(second component of UserDetailsForm.jsx) -/

/-- Hold request parameters as produced by `parseHoldUrl`. -/
structure HoldParams where
  est : String
  lng : String
  covers : Int
  date : String
  time : Int
  area : Option Int
  deriving DecidableEq, Repr

/-- Provider response to the hold call. -/
structure HoldResp where
  ok : Bool
  uid : Int
  created : Int
  card : Int
  perHead : Option Int
  deriving DecidableEq, Repr

/-- Stage operation `processHold`: enters the HOLDING flow state, and on
a successful hold response stores the booking data (provider fields
merged with the request parameters), which also arms the 3-minute
hold-expiry timer via SET_BOOKING; on failure the error state is
entered. -/
def processHold (s : FlowSt) (p : HoldParams) (resp : HoldResp) (now : Int) : FlowSt :=
  let s1 := flowReducer s (Action.setFlowState FlowState.holding)
  if resp.ok then
    flowReducer s1 (Action.setBooking
      { uid := resp.uid
        created := resp.created
        card := resp.card
        perHead := resp.perHead
        est := p.est
        covers := p.covers
        date := p.date
        time := p.time
        area := p.area } now)
  else
    flowReducer s1 (Action.setError "Booking hold failed: Booking hold failed")

/-- Provider response to the pi-get call, with every field name that
appears in the repository (old snake underscore spellings, new camelCase
spellings, and the alternate stripePK publishable-key name).  A field the
provider did not send is `none`. -/
structure PiGetResp where
  client_secret : Option String
  public_key : Option String
  clientSecret : Option String
  publishableKey : Option String
  stripePK : Option String
  cust : Option String
  deriving DecidableEq, Repr

/-- Key extraction of stage operation `fetchStripeKeys`
(UserDetailsForm.jsx lines 941-951): the code reads only the snake
underscore fields `client_secret` and `public_key` of the response and
throws the missing-keys error when either is falsy; on success it stores
them unchanged. -/
def fetchStripeKeys (r : PiGetResp) :
    Except String (Option String × Option String × Option String) :=
  if !(truthy r.client_secret) || !(truthy r.public_key) then
    Except.error "Missing Stripe keys in pi-get response"
  else
    Except.ok (r.client_secret, r.public_key, r.cust)

/-- Modelled from the spec: the alias-tolerant key extraction the spec
(and the repository document STRIPE_API_FIELD_NAME_FIX.md) requires but
which is missing from the source components — `clientSecret` falling
back to `client_secret`, and `publishableKey` falling back to
`public_key` and then `stripePK`, failing only when no recognized alias
is present. -/
def fetchStripeKeysSpec (r : PiGetResp) :
    Except String (Option String × Option String × Option String) :=
  let cs := if truthy r.clientSecret then r.clientSecret else r.client_secret
  let pk :=
    if truthy r.publishableKey then r.publishableKey
    else if truthy r.public_key then r.public_key
    else r.stripePK
  if !(truthy cs) || !(truthy pk) then
    Except.error "Missing Stripe keys in pi-get response"
  else
    Except.ok (cs, pk, r.cust)

/-- Provider response to the deposit-get call. -/
structure DepositResp where
  ok : Bool
  code : Int
  total : Option Int
  currency : Option String
  deriving DecidableEq, Repr

/-- Stage operation `fetchDepositInfo`: on an ok response it dispatches
SET_PAYMENT_TYPE with the response (the reducer derives the
classification from `code`); on a not-ok response the error state is
entered.  The boolean reports whether the stage completed
successfully. -/
def fetchDepositInfo (s : FlowSt) (resp : DepositResp) : FlowSt × Bool :=
  if resp.ok then
    (flowReducer s (Action.setPaymentType resp.code resp.total resp.currency), true)
  else
    (flowReducer s
      (Action.setError
        "Failed to retrieve deposit information: Deposit-get request failed"), false)

/-- Stage operation `processPayment` (UserDetailsForm.jsx lines
1044-1133): bails out without any network call when Stripe.js is not
loaded or the card entry is incomplete; otherwise it confirms the intent
on the route chosen from the client secret.  On success the value
captured and returned is `payment_method` of the resulting intent object
(not its `id`).  Returns the issued calls and either the captured
identifier or the failure message. -/
def processPayment (env : Env) (cardComplete : Bool) (clientSecret : Option String) :
    List Ev × Except String String :=
  if !env.stripeLoaded then ([], Except.error "Payment processing failed")
  else if !cardComplete then ([], Except.error "Payment processing failed")
  else
    let route :=
      if getIntentType clientSecret = some "setup_intent" then ConfirmRoute.setupPath
      else ConfirmRoute.paymentPath
    match env.confirmResult with
    | Except.error e => ([Ev.confirmCall route false], Except.error e)
    | Except.ok r => ([Ev.confirmCall route true], Except.ok r.payment_method)

/-- Stage operation `updateBooking` (UserDetailsForm.jsx lines
1189-1246): issues the finalize (update) call for the current booking
identifier and reports its outcome. -/
def updateBooking (b : Booking) (env : Env) : List Ev × Bool :=
  ([Ev.updateCall b.uid env.updateOk], env.updateOk)

/-- Stage operation `attachPaymentMethod` (UserDetailsForm.jsx lines
1136-1186): a falsy identifier fails without a network call; any other
string — with no shape validation of any kind — is sent as the `pm`
parameter of the pm-id request, and the provider outcome is reported. -/
def attachPaymentMethod (b : Booking) (amount : Option Int) (pmId : Option String)
    (env : Env) : List Ev × Bool :=
  match pmId with
  | none => ([], false)
  | some pm =>
      if pm == "" then ([], false)
      else ([Ev.pmIdCall (mkPmIdParams b amount pm)], env.pmIdOk)

/-- Modelled from the spec: the intent-identifier shape the guard
invariant speaks about — the processor intent identifiers begin with the
seti or pi prefixes, while raw payment-method identifiers begin with pm
(see docs/FIX_SPEC_PM_ID_INTENT_EXTRACTION.md).  No such guard exists in
the source. -/
def intentIdShape (s : String) : Bool :=
  strStarts s "seti_" || strStarts s "pi_"

/-- Outcome of a complete-booking or finalize submission. -/
inductive CBResult
  | notSubmitted
  | completed
  | error (msg : String)
  deriving DecidableEq, Repr

/-- Stage operation `completeBooking` (UserDetailsForm.jsx lines
1249-1349).  After form validation it always issues the restore
re-validation first and aborts on a not-ok answer.  When a card is
required and the card entry is complete, `processPayment` and
`updateBooking` are started together with `Promise.all` — both calls are
issued regardless of the outcome of the other — and only afterwards are
the two outcomes inspected (payment first); on both succeeding the
payment method is attached.  Without a card requirement only the update
is issued. -/
def completeBooking (formValid : Bool) (b : Booking) (st : StripeCtx)
    (cardComplete : Bool) (env : Env) : List Ev × CBResult :=
  if !formValid then ([], CBResult.notSubmitted)
  else
    let rEv := Ev.restoreCall b.uid env.restoreOk
    if !env.restoreOk then
      ([rEv], CBResult.error "Failed to complete booking: Booking validation failed before update")
    else if isCardRequired (some b) && cardComplete then
      let pr := processPayment env cardComplete st.clientSecret
      let ur := updateBooking b env
      let evs := rEv :: (pr.1 ++ ur.1)
      match pr.2 with
      | Except.error e => (evs, CBResult.error ("Failed to complete booking: " ++ e))
      | Except.ok pmId =>
          if !ur.2 then
            (evs, CBResult.error "Failed to complete booking: Booking update failed")
          else
            let ar := attachPaymentMethod b st.amount (some pmId) env
            if ar.2 then (evs ++ ar.1, CBResult.completed)
            else
              (evs ++ ar.1,
               CBResult.error
                 "Failed to complete booking: Failed to attach payment method to booking")
    else
      let ur := updateBooking b env
      if ur.2 then (rEv :: ur.1, CBResult.completed)
      else (rEv :: ur.1, CBResult.error "Failed to complete booking: Booking update failed")

/-! ## The finalize path of the first UserDetailsForm component -/

/-- Refund attempt of the catch block of `UserDetailsForm.handleSubmit`
(UserDetailsForm.jsx lines 229-247): a refund call is issued exactly
when `stripe.paymentIntentId` is truthy and `stripe.intentType` equals
the payment-intent tag. -/
def refundEvs (st : StripeCtx) : List Ev :=
  if truthy st.paymentIntentId && st.intentType == some "payment_intent" then
    [Ev.refundCall (st.paymentIntentId.getD "")]
  else []

/-- Stripe description update of the success path of
`UserDetailsForm.handleSubmit` (lines 176-212), gated on a truthy
`stripe.paymentIntentId`. -/
def descEvs (st : StripeCtx) : List Ev :=
  if truthy st.paymentIntentId then
    [Ev.updateDescCall (st.paymentIntentId.getD "")]
  else []

/-- Finalize path `UserDetailsForm.handleSubmit` (first component of
UserDetailsForm.jsx, lines 107-262): validate, restore, update; on any
failure the catch block considers the refund (lines 229-247), on
success the description update is considered. -/
def userDetailsSubmit (formValid : Bool) (b : Booking) (st : StripeCtx)
    (restoreOk updateOk : Bool) : List Ev × CBResult :=
  if !formValid then ([], CBResult.notSubmitted)
  else
    let rEv := Ev.restoreCall b.uid restoreOk
    if !restoreOk then
      (rEv :: refundEvs st,
       CBResult.error "Failed to complete booking: Booking validation failed before update")
    else
      let uEv := Ev.updateCall b.uid updateOk
      if !updateOk then
        (rEv :: uEv :: refundEvs st,
         CBResult.error "Failed to complete booking: Booking update failed")
      else
        (rEv :: uEv :: descEvs st, CBResult.completed)

/-- Number of refund calls in a trace. -/
def countRefunds (evs : List Ev) : Nat :=
  evs.countP fun e =>
    match e with
    | Ev.refundCall _ => true
    | _ => false

/-! ## Concrete fixtures (values from the README sample flow) -/

/-- Sample deposit booking: the hold response of the README
(`uid 42015, card 2, perHead 3000`) merged with its hold parameters. -/
def bookingEx : Booking :=
  { uid := 42015
    created := 1752780515
    card := 2
    perHead := some 3000
    est := "TestNZA"
    covers := 10
    date := "2025-07-25"
    time := 16
    area := some 1000 }

/-- Same booking with no card requirement (`card 0`). -/
def bookingNoCard : Booking :=
  { bookingEx with uid := 42023, card := 0, perHead := none }

/-- Stripe context of a deposit attempt after keys and deposit decision
have been fetched (payment-intent client secret, 30000 cents). -/
def stripeCtxEx : StripeCtx :=
  { clientSecret := some "pi_3ABC_secret_xyz"
    publicKey := some "pk_test_QZq"
    cust := some "cus_TRrR"
    paymentType := some "deposit"
    amount := some 30000
    currency := some "nzd"
    paymentIntentId := none
    intentType := none }

/-- Successful setup-intent confirmation object: the intent identifier
and the distinct raw payment-method identifier it carries. -/
def setupIntentEx : IntentResult :=
  { id := "seti_ABC123", payment_method := "pm_XYZ789", status := "succeeded" }

/-- Environment of a run in which the card is declined but the provider
is healthy (restore and update succeed). -/
def envDecline : Env :=
  { restoreOk := true
    stripeLoaded := true
    confirmResult := Except.error "Your card was declined."
    updateOk := true
    pmIdOk := true }

/-- Environment of a fully successful run confirming `setupIntentEx`. -/
def envOkSetup : Env :=
  { restoreOk := true
    stripeLoaded := true
    confirmResult := Except.ok setupIntentEx
    updateOk := true
    pmIdOk := true }

/-- Response of the current pi-get provider version
(STRIPE_API_FIELD_NAME_FIX.md): camelCase names plus `stripePK`, with the
old snake underscore fields absent. -/
def piGetRespNew : PiGetResp :=
  { client_secret := none
    public_key := none
    clientSecret := some "seti_1SUxiY_secret_abc"
    publishableKey := some "pk_test_QZq"
    stripePK := some "pk_test_QZq"
    cust := some "cus_TRrR" }

/-! ## C1 — sequential confirm/finalize ordering -/

/-- C1: the claim mandates strictly sequential execution of the card
confirmation and the finalize (update) call, the first outcome gating
the second, so a declined card never leaves a finalized booking.  The
source instead starts both with `Promise.all`: in a run where the card
is declined (`envDecline`), `completeBooking` still issues the finalize
call, which succeeds — the overall result is an error, yet a finalized
booking is left behind.  This theorem evaluates the code at that failing
input. -/
theorem completeBooking_parallel_decline_leaves_finalized_booking :
    (completeBooking true bookingEx stripeCtxEx true envDecline).1 =
      [Ev.restoreCall 42015 true,
       Ev.confirmCall ConfirmRoute.paymentPath false,
       Ev.updateCall 42015 true]
    ∧ (completeBooking true bookingEx stripeCtxEx true envDecline).2 =
        CBResult.error "Failed to complete booking: Your card was declined." :=
  ⟨rfl, rfl⟩

/-! ## C2 — attach must send the intent identifier -/

/-- C2: the claim requires the `pm` value of the attach (pm-id) request
to be the processor intent identifier, with a fail-fast shape guard
before any network call.  The source extracts `payment_method` from the
confirmed intent — the raw payment-method identifier — although the
intent identifier (`setupIntentEx.id`, which does match the intent
shape) is available in the same object, and `attachPaymentMethod` sends
it to the provider with no shape validation at all.  This theorem
evaluates the code at that failing input. -/
theorem attach_sends_payment_method_id_without_shape_guard :
    (processPayment envOkSetup true (some "seti_1SUxiY_secret_abc")).2 =
      Except.ok "pm_XYZ789"
    ∧ setupIntentEx.id = "seti_ABC123"
    ∧ intentIdShape setupIntentEx.id = true
    ∧ intentIdShape "pm_XYZ789" = false
    ∧ (attachPaymentMethod bookingEx (some 20000) (some "pm_XYZ789") envOkSetup).1 =
        [Ev.pmIdCall (mkPmIdParams bookingEx (some 20000) "pm_XYZ789")] :=
  ⟨rfl, rfl, rfl, rfl, rfl⟩

/-! ## C6 — pi-get field-name aliases -/

/-- C6: the claim says `fetchStripeKeys` accepts every historical alias
of the client secret and publishable key.  The source reads only the
snake underscore spellings, so the documented current provider response
(`piGetRespNew`, camelCase plus `stripePK`) is rejected with the
missing-keys error even though recognized aliases are present, while the
alias-tolerant extraction required by the spec and by
STRIPE_API_FIELD_NAME_FIX.md accepts it. -/
theorem fetchStripeKeys_rejects_new_field_names :
    fetchStripeKeys piGetRespNew =
      Except.error "Missing Stripe keys in pi-get response"
    ∧ fetchStripeKeysSpec piGetRespNew =
        Except.ok (some "seti_1SUxiY_secret_abc", some "pk_test_QZq", some "cus_TRrR") :=
  ⟨rfl, rfl⟩

/-! ## C9 — minor-currency units end to end -/

/-- C9 counterexample: the claim as stated — monetary parameters sent to
the external services are always the integer minor-unit amounts, never a
value divided by 100 — fails at the pm-id attach request: for an amount
of 30000 cents the request carries `totalFloat = 300`, the major-unit
quotient, not 30000. -/
theorem pmId_totalFloat_not_minor_units :
    (mkPmIdParams bookingEx (some 30000) "pm_X").totalFloat = some (300 : ℚ)
    ∧ (mkPmIdParams bookingEx (some 30000) "pm_X").totalFloat ≠
        some ((30000 : Int) : ℚ) := by
  constructor
  · simp [mkPmIdParams]
    norm_num
  · simp [mkPmIdParams]
    norm_num

/-- C9 amended: amounts are held in state and sent in the `total`
parameter as unchanged integer minor units, and division by 100 occurs
exactly at the presentation boundary (`formatAmount`) and in the
`totalFloat` parameter of the pm-id request, which the provider
interface defines as the major-unit value. -/
theorem amounts_minor_units_except_totalFloat
    (b : Booking) (amount : Int) (pm : String) (s : FlowSt) (code : Int)
    (total : Option Int) (currency : Option String) :
    (mkPmIdParams b (some amount) pm).total = some amount
    ∧ (mkPmIdParams b (some amount) pm).totalFloat = some ((amount : ℚ) / 100)
    ∧ (flowReducer s (Action.setPaymentType code total currency)).stripe.amount = total
    ∧ ∀ c : Int, c ≠ 0 → formatAmount (some c) = (c : ℚ) / 100 := by
  refine ⟨rfl, rfl, rfl, ?_⟩
  intro c hc
  simp [formatAmount, hc]

/-- Witness for the amended C9 theorem at a concrete input. -/
theorem amounts_minor_units_except_totalFloat_witness :
    formatAmount (some (3000 : Int)) = ((3000 : Int) : ℚ) / 100 :=
  (amounts_minor_units_except_totalFloat bookingEx 30000 "pm_X" initialState 2
    (some 30000) (some "nzd")).2.2.2 3000 (by decide)

/-! ## C3 — compensation refund after a post-charge finalize failure -/

/-- Helper: no reducer action ever writes the `paymentIntentId` or
`intentType` fields of the stripe context. -/
theorem intent_fields_preserved (s : FlowSt) (a : Action)
    (h1 : s.stripe.paymentIntentId = none) (h2 : s.stripe.intentType = none) :
    (flowReducer s a).stripe.paymentIntentId = none
    ∧ (flowReducer s a).stripe.intentType = none := by
  cases a <;> simp [flowReducer, initialState, h1, h2]

/-- Helper: in every state reachable from `initialState` the two fields
the refund gate reads are still absent. -/
theorem intent_fields_none_of_reachable :
    ∀ (acts : List Action) (s : FlowSt),
      s.stripe.paymentIntentId = none → s.stripe.intentType = none →
      (applyActs s acts).stripe.paymentIntentId = none
      ∧ (applyActs s acts).stripe.intentType = none := by
  intro acts
  induction acts with
  | nil => exact fun s h1 h2 => ⟨h1, h2⟩
  | cons a rest ih =>
      intro s h1 h2
      obtain ⟨h1a, h2a⟩ := intent_fields_preserved s a h1 h2
      exact ih (flowReducer s a) h1a h2a

/-- C3: the claim requires exactly one refund request, referencing the
confirmed intent identifier, whenever a deposit attempt that reached
CARD_CONFIRMED fails to finalize.  The refund of
`UserDetailsForm.handleSubmit` is gated on `stripe.paymentIntentId` and
`stripe.intentType`, which no reducer action ever sets (the confirmation
stores only the raw payment-method identifier, in `paymentMethod`), so
from every reachable flow state — in particular every deposit attempt
whose finalize fails — the run issues zero refund calls, not one. -/
theorem no_refund_ever_issued_on_finalize_failure
    (acts : List Action) (formValid : Bool) (b : Booking)
    (restoreOk updateOk : Bool) :
    countRefunds
      (userDetailsSubmit formValid b (applyActs initialState acts).stripe
        restoreOk updateOk).1 = 0 := by
  obtain ⟨h1, h2⟩ := intent_fields_none_of_reachable acts initialState rfl rfl
  have hre : refundEvs (applyActs initialState acts).stripe = [] := by
    simp [refundEvs, truthy, h1]
  have hde : descEvs (applyActs initialState acts).stripe = [] := by
    simp [descEvs, truthy, h1]
  cases formValid <;> cases restoreOk <;> cases updateOk <;>
    simp [userDetailsSubmit, countRefunds, hre, hde]

/-! ## C4 — classification derived from the deposit-decision code -/

/-- C4: once the deposit-decision stage completes successfully, the
stored payment classification is the no-show tag exactly when the
response code equals 1 and the deposit tag for every other code,
whatever the prior state (in particular whatever card requirement level
the hold reported). -/
theorem classification_from_deposit_code (s : FlowSt) (resp : DepositResp)
    (h : resp.ok = true) :
    ((fetchDepositInfo s resp).1.stripe.paymentType = some "noshow" ↔ resp.code = 1)
    ∧ ((fetchDepositInfo s resp).1.stripe.paymentType = some "deposit" ↔ resp.code ≠ 1) := by
  have hval : (fetchDepositInfo s resp).1.stripe.paymentType =
      some (if resp.code = 1 then "noshow" else "deposit") := by
    simp [fetchDepositInfo, h, flowReducer]
  rw [hval]
  by_cases hc : resp.code = 1 <;> simp [hc]

/-- Witness for C4: a code-1 decision yields the no-show classification
even for a hold that reported a deposit-level card requirement. -/
theorem classification_from_deposit_code_witness :
    ((fetchDepositInfo
        (flowReducer initialState (Action.setBooking bookingEx 0))
        { ok := true, code := 1, total := some 20000, currency := some "nzd" }).1.stripe.paymentType
      = some "noshow") :=
  (classification_from_deposit_code
    (flowReducer initialState (Action.setBooking bookingEx 0))
    { ok := true, code := 1, total := some 20000, currency := some "nzd" }
    rfl).1.mpr rfl

/-! ## C5 — start attempt then reset restores the initial state -/

/-- C5: a successful hold populates the booking and arms the hold-expiry
timer, and dispatching RESET_STATE immediately afterwards returns the
whole state to exactly `initialState`, with no residual fields. -/
theorem startAttempt_then_reset_is_initial (s : FlowSt) (p : HoldParams)
    (resp : HoldResp) (now : Int) (h : resp.ok = true) :
    (processHold s p resp now).booking.isSome = true
    ∧ (processHold s p resp now).holdExpiry = some (now + 3 * 60 * 1000)
    ∧ flowReducer (processHold s p resp now) Action.resetState = initialState := by
  refine ⟨?_, ?_, rfl⟩ <;> simp [processHold, h, flowReducer]

/-- Witness for C5 at the README sample hold. -/
theorem startAttempt_then_reset_is_initial_witness :
    flowReducer
      (processHold initialState
        { est := "TestNZA", lng := "en", covers := 10, date := "2025-07-25",
          time := 16, area := some 1000 }
        { ok := true, uid := 42015, created := 1752780515, card := 2,
          perHead := some 3000 }
        1752780515000)
      Action.resetState = initialState :=
  (startAttempt_then_reset_is_initial initialState
    { est := "TestNZA", lng := "en", covers := 10, date := "2025-07-25",
      time := 16, area := some 1000 }
    { ok := true, uid := 42015, created := 1752780515, card := 2,
      perHead := some 3000 }
    1752780515000 rfl).2.2

/-! ## C7 — finalize only after a fresh successful restore -/

/-- Helper: `processPayment` never issues an update (finalize) call. -/
theorem processPayment_no_update (env : Env) (cc : Bool) (cs : Option String)
    (u : Int) (ok : Bool) :
    Ev.updateCall u ok ∉ (processPayment env cc cs).1 := by
  rcases env with ⟨ro, sl, cr, uo, po⟩
  cases sl <;> cases cc <;> cases cr <;> simp [processPayment]

/-- Helper: `attachPaymentMethod` never issues an update (finalize)
call. -/
theorem attach_no_update (b : Booking) (amount : Option Int)
    (pmId : Option String) (env : Env) (u : Int) (ok : Bool) :
    Ev.updateCall u ok ∉ (attachPaymentMethod b amount pmId env).1 := by
  cases pmId with
  | none => simp [attachPaymentMethod]
  | some pm => cases h : pm == "" <;> simp [attachPaymentMethod, h]

/-- C7: in every `completeBooking` run, a finalize (update) call is
issued only when the restore re-validation — issued first, for the same
hold identifier — returned ok: every update call in the trace is for the
booking identifier whose successful restore heads the trace, and when
the restore check fails no update call is ever issued. -/
theorem finalize_only_after_fresh_restore
    (formValid cardComplete : Bool) (b : Booking) (st : StripeCtx) (env : Env) :
    (∀ u ok, Ev.updateCall u ok ∈ (completeBooking formValid b st cardComplete env).1 →
        env.restoreOk = true ∧ u = b.uid ∧
        (completeBooking formValid b st cardComplete env).1.head? =
          some (Ev.restoreCall b.uid true))
    ∧ (env.restoreOk = false →
        ∀ u ok, Ev.updateCall u ok ∉ (completeBooking formValid b st cardComplete env).1) := by
  cases formValid with
  | false =>
      constructor
      · intro u ok h
        simp [completeBooking] at h
      · intro _ u ok
        simp [completeBooking]
  | true =>
      cases hR : env.restoreOk with
      | false =>
          constructor
          · intro u ok h
            simp [completeBooking, hR] at h
          · intro _ u ok
            simp [completeBooking, hR]
      | true =>
          refine ⟨?_, fun hfalse => absurd hfalse (by decide)⟩
          intro u ok h
          have htr : ∃ rest, (completeBooking true b st cardComplete env).1
              = Ev.restoreCall b.uid true :: rest
              ∧ (∀ v okv, Ev.updateCall v okv ∈ rest → v = b.uid) := by
            by_cases hcc : (isCardRequired (some b) && cardComplete) = true
            · cases hp : (processPayment env cardComplete st.clientSecret).2 with
              | error e =>
                  refine ⟨(processPayment env cardComplete st.clientSecret).1
                    ++ [Ev.updateCall b.uid env.updateOk], ?_, ?_⟩
                  · simp [completeBooking, hR, hcc, updateBooking, hp]
                  · intro v okv hv
                    rcases List.mem_append.mp hv with hv1 | hv2
                    · exact absurd hv1 (processPayment_no_update env cardComplete st.clientSecret v okv)
                    · simp at hv2
                      exact hv2.1
              | ok pmId =>
                  cases hU : env.updateOk with
                  | false =>
                      refine ⟨(processPayment env cardComplete st.clientSecret).1
                        ++ [Ev.updateCall b.uid env.updateOk], ?_, ?_⟩
                      · simp [completeBooking, hR, hcc, updateBooking, hp, hU]
                      · intro v okv hv
                        rcases List.mem_append.mp hv with hv1 | hv2
                        · exact absurd hv1 (processPayment_no_update env cardComplete st.clientSecret v okv)
                        · simp at hv2
                          exact hv2.1
                  | true =>
                      refine ⟨((processPayment env cardComplete st.clientSecret).1
                        ++ [Ev.updateCall b.uid env.updateOk])
                        ++ (attachPaymentMethod b st.amount (some pmId) env).1, ?_, ?_⟩
                      · cases hA : (attachPaymentMethod b st.amount (some pmId) env).2 <;>
                          simp [completeBooking, hR, hcc, updateBooking, hp, hU, hA]
                      · intro v okv hv
                        rcases List.mem_append.mp hv with hv0 | hv3
                        · rcases List.mem_append.mp hv0 with hv1 | hv2
                          · exact absurd hv1 (processPayment_no_update env cardComplete st.clientSecret v okv)
                          · simp at hv2
                            exact hv2.1
                        · exact absurd hv3 (attach_no_update b st.amount (some pmId) env v okv)
            · cases hU : env.updateOk with
              | false =>
                  refine ⟨[Ev.updateCall b.uid env.updateOk], ?_, ?_⟩
                  · simp [completeBooking, hR, hcc, updateBooking, hU]
                  · intro v okv hv
                    simp at hv
                    exact hv.1
              | true =>
                  refine ⟨[Ev.updateCall b.uid env.updateOk], ?_, ?_⟩
                  · simp [completeBooking, hR, hcc, updateBooking, hU]
                  · intro v okv hv
                    simp at hv
                    exact hv.1
          obtain ⟨rest, htrace, hmem⟩ := htr
          rw [htrace] at h
          refine ⟨rfl, ?_, by rw [htrace]; rfl⟩
          rcases List.mem_cons.mp h with hhd | htl
          · exact absurd hhd (by simp)
          · exact hmem u ok htl

/-- Witness for C7: in the declined-card run the update call that occurs
is for the held booking, and the trace is headed by its successful
restore. -/
theorem finalize_only_after_fresh_restore_witness :
    envDecline.restoreOk = true ∧ (42015 : Int) = bookingEx.uid ∧
    (completeBooking true bookingEx stripeCtxEx true envDecline).1.head? =
      some (Ev.restoreCall bookingEx.uid true) :=
  (finalize_only_after_fresh_restore true true bookingEx stripeCtxEx envDecline).1
    42015 true (by decide)

/-! ## C8 — card 0 finalizes directly, no payment calls -/

/-- C8: for a hold with card requirement 0, `completeBooking` issues
exactly the restore re-validation and — when it succeeds — the finalize
(update) call, and nothing else: no payment-keys, deposit-decision,
confirmation or attach call appears in the trace, and the attempt
completes exactly when restore and update both succeed. -/
theorem no_card_direct_finalize
    (b : Booking) (st : StripeCtx) (cardComplete : Bool) (env : Env)
    (hcard : b.card = 0) :
    (completeBooking true b st cardComplete env).1 =
      (if env.restoreOk then
         [Ev.restoreCall b.uid true, Ev.updateCall b.uid env.updateOk]
       else [Ev.restoreCall b.uid false])
    ∧ ((completeBooking true b st cardComplete env).2 = CBResult.completed ↔
        env.restoreOk = true ∧ env.updateOk = true) := by
  have hc : isCardRequired (some b) = false := by simp [isCardRequired, hcard]
  cases hR : env.restoreOk <;> cases hU : env.updateOk <;>
    simp [completeBooking, updateBooking, hc, hR, hU]

/-- Witness for C8: the no-card booking completes through restore and
update alone. -/
theorem no_card_direct_finalize_witness :
    (completeBooking true bookingNoCard stripeCtxEx true envDecline).2 =
      CBResult.completed :=
  (no_card_direct_finalize bookingNoCard stripeCtxEx true envDecline rfl).2.mpr
    ⟨rfl, rfl⟩

/-! ## C10 — totality of the intent-type classifier and routing -/

/-- C10: `getIntentType` is total — null for a null or empty secret, the
setup tag for a seti-prefixed string, the payment tag for a pi-prefixed
string, and for every other string the setup tag exactly when the
underscore-seti marker occurs in it, the payment tag otherwise — and
`confirmIntent` routes every secret whose type is not the setup tag
(unrecognized shapes included) to the payment-intent confirmation path
rather than rejecting it. -/
theorem getIntentType_total_and_routing (cs : String) :
    getIntentType none = none
    ∧ getIntentType (some "") = none
    ∧ (strStarts cs "seti_" = true → getIntentType (some cs) = some "setup_intent")
    ∧ (strStarts cs "seti_" = false → strStarts cs "pi_" = true →
        getIntentType (some cs) = some "payment_intent")
    ∧ (cs ≠ "" → strStarts cs "seti_" = false → strStarts cs "pi_" = false →
        getIntentType (some cs) =
          (if strIncludes cs "_seti_" then some "setup_intent"
           else some "payment_intent"))
    ∧ (∀ cs2 : Option String, getIntentType cs2 ≠ some "setup_intent" →
        confirmIntentRoute cs2 = ConfirmRoute.paymentPath)
    ∧ (confirmIntentRoute (some cs) = ConfirmRoute.setupPath ↔
        getIntentType (some cs) = some "setup_intent") := by
  refine ⟨rfl, rfl, ?_, ?_, ?_, ?_, ?_⟩
  · intro h
    have hne : (cs == "") = false := by
      cases hcs : cs == "" with
      | false => rfl
      | true =>
          have he : cs = "" := by simpa using hcs
          subst he
          exact absurd h (by decide)
    simp [getIntentType, hne, h]
  · intro h1 h2
    have hne : (cs == "") = false := by
      cases hcs : cs == "" with
      | false => rfl
      | true =>
          have he : cs = "" := by simpa using hcs
          subst he
          exact absurd h2 (by decide)
    simp [getIntentType, hne, h1, h2]
  · intro h0 h1 h2
    have hne : (cs == "") = false := by
      cases hcs : cs == "" with
      | false => rfl
      | true => exact absurd (by simpa using hcs) h0
    simp [getIntentType, hne, h1, h2]
  · intro cs2 h
    simp [confirmIntentRoute, h]
  · simp only [confirmIntentRoute]
    by_cases h : getIntentType (some cs) = some "setup_intent" <;> simp [h]

/-- Witness for C10: an unrecognized secret shape is classified as a
payment intent (the charge-now path). -/
theorem getIntentType_total_and_routing_witness :
    getIntentType (some "px_123") = some "payment_intent" := by
  have h := (getIntentType_total_and_routing "px_123").2.2.2.2.1
    (by decide) (by decide) (by decide)
  exact h.trans (by decide)

end StripeBooking
